import Mathlib

/-!
Verification development for the mydocker container runtime
(https://github.com/AbhishekGY/docker_clone).

The definitions below are a shallow embedding of the Go sources:

* pkg/cgroups (src/unnamed/part_008): cgroup handles, resource limits,
  the v1/v2 translation of caps to kernel files.  File writes are modelled
  as a log of (path, content) pairs; whether a given WriteFile call
  succeeds is supplied by an oracle on paths, so that the error-handling
  structure (early return vs. logged-and-ignored) is visible.
* pkg/container (src/unnamed/part_003, with the detach flag of the
  revision in src/unnamed/part_004): the Runner and its lifecycle.
* pkg/daemon (src/pkg/daemon/daemon.go and src/unnamed/part_007): the
  registry, create/start/stop/monitor flows, and boot reconciliation.

Go unsigned 64-bit arithmetic is modelled on Nat with explicit reduction
modulo 2^64.  The in-memory maps are modelled as association lists with
Go map semantics (insert replaces, delete removes).  External effects
(signals, spawn, cgroup deletion) are recorded as an event log.
-/

/-- Modulus of Go's uint64 arithmetic. -/
def U64 : Nat := 2 ^ 64

/-- Reduction of a natural number into the uint64 range. -/
def u64 (n : Nat) : Nat := n % U64

/-- Go uint64 subtraction (wraps around on underflow). -/
def u64sub (a b : Nat) : Nat := (u64 a + (U64 - u64 b)) % U64

/-- Go uint64 multiplication (wraps around on overflow). -/
def u64mul (a b : Nat) : Nat := u64 a * u64 b % U64

/-- Go uint64 addition (wraps around on overflow). -/
def u64add (a b : Nat) : Nat := (u64 a + u64 b) % U64

/-- Cgroup controllers, from pkg/cgroups (src/unnamed/part_008). -/
inductive Controller where
  | cpu
  | memory
  | cpuset
  | pids
  | blkio
deriving DecidableEq, Repr

/-- Kernel name of a controller, as in the Go constant declarations. -/
def Controller.name : Controller → String
  | .cpu => "cpu"
  | .memory => "memory"
  | .cpuset => "cpuset"
  | .pids => "pids"
  | .blkio => "blkio"

/-- ResourceLimits from pkg/cgroups.  CpuShares, CpuPeriod, MemoryLimit and
MemorySwapLimit are Go uint64 (modelled as Nat, reduced mod 2^64 inside the
arithmetic); CpuQuota and PidsLimit are Go int64 (modelled as Int). -/
structure ResourceLimits where
  cpuShares : Nat
  cpuQuota : Int
  cpuPeriod : Nat
  memoryLimit : Nat
  memorySwapLimit : Nat
  pidsLimit : Int
deriving DecidableEq, Repr

/-- DefaultResourceLimits from pkg/cgroups. -/
def DefaultResourceLimits : ResourceLimits :=
  { cpuShares := 1024
    cpuQuota := -1
    cpuPeriod := 100000
    memoryLimit := 0
    memorySwapLimit := 0
    pidsLimit := 0 }

/-- Cgroup handle from pkg/cgroups: sanitized name, requested controllers,
and the unified path (empty string means cgroups v1, exactly as the Go code
distinguishes the two flavors by cg.Path being empty). -/
structure Cgroup where
  name : String
  controllers : List Controller
  path : String
deriving DecidableEq, Repr

/-- Embedding of filepath.Join for the clean absolute paths this code
builds: joins with a single separator. -/
def pathJoin (a b : String) : String := a ++ "/" ++ b

/-- Sanitization done by NewCgroup: strings.Replace(name, "/", "_", -1)
applied to single characters, then prefixed with "mydocker-".  The
character map is written over the underlying character list so that it
computes by structural recursion. -/
def sanitizeCgroupName (name : String) : String :=
  "mydocker-" ++ String.mk (name.data.map (fun c => if c = '/' then '_' else c))

/-- NewCgroup from pkg/cgroups.  The v2 argument stands for the outcome of
the os.Stat probe for /sys/fs/cgroup/cgroup.controllers. -/
def NewCgroup (name : String) (controllers : List Controller) (v2 : Bool) : Cgroup :=
  let cgroupName := sanitizeCgroupName name
  if v2 then
    { name := cgroupName, controllers := controllers
      path := pathJoin "/sys/fs/cgroup" cgroupName }
  else
    { name := cgroupName, controllers := controllers, path := "" }

/-- Oracle telling whether an os.WriteFile call on a given path succeeds. -/
def FsOracle : Type := String → Bool

/-- Oracle under which every write succeeds. -/
def allWritesOk : FsOracle := fun _ => true

/-- Result of a cgroup-limit application: the successful writes in order
(path and written content), and the error surfaced to the caller, if any. -/
structure CgResult where
  writes : List (String × String)
  err : Option String
deriving DecidableEq, Repr

/-- Value written to cpu.weight on cgroups v2, from applyCpuLimits:
weight := 1 + ((limits.CpuShares-2)*9999)/262142 in Go uint64 arithmetic,
then the (dead) guard replacing 0 by 1. -/
def cpuWeightV2 (shares : Nat) : Nat :=
  let weight := u64add 1 (u64mul (u64sub shares 2) 9999 / 262142)
  if weight = 0 then 1 else weight

/-- Period value used by applyCpuLimits on v2: the configured period, or
the 100000 microsecond default when it is zero. -/
def cpuPeriodOrDefault (period : Nat) : Nat :=
  if period = 0 then 100000 else period

/-- Embedding of applyCpuLimits from pkg/cgroups.  On v2 (cg.path nonempty):
writes cpu.weight when CpuShares is positive and cpu.max when CpuQuota is
positive, returning on the first failed write.  On v1: writes cpu.shares
(shares positive), cpu.cfs_quota_us (quota nonnegative) and
cpu.cfs_period_us (period positive) under the per-controller directory. -/
def applyCpuLimits (cg : Cgroup) (limits : ResourceLimits) (ok : FsOracle) : CgResult :=
  if cg.path ≠ "" then
    let step1 : CgResult :=
      if 0 < limits.cpuShares then
        let wpath := pathJoin cg.path "cpu.weight"
        if ok wpath then
          { writes := [(wpath, toString (cpuWeightV2 limits.cpuShares))], err := none }
        else
          { writes := [], err := some "failed to set cpu weight" }
      else
        { writes := [], err := none }
    if step1.err.isSome then step1
    else if 0 < limits.cpuQuota then
      let periodVal := cpuPeriodOrDefault limits.cpuPeriod
      let mpath := pathJoin cg.path "cpu.max"
      if ok mpath then
        { writes := step1.writes ++ [(mpath, toString limits.cpuQuota ++ " " ++ toString periodVal)]
          err := none }
      else
        { writes := step1.writes, err := some "failed to set cpu.max" }
    else step1
  else
    let cpuCgPath := pathJoin (pathJoin "/sys/fs/cgroup" "cpu") cg.name
    let step1 : CgResult :=
      if 0 < limits.cpuShares then
        let spath := pathJoin cpuCgPath "cpu.shares"
        if ok spath then
          { writes := [(spath, toString (u64 limits.cpuShares))], err := none }
        else
          { writes := [], err := some "failed to set cpu shares" }
      else
        { writes := [], err := none }
    if step1.err.isSome then step1
    else
      let step2 : CgResult :=
        if 0 ≤ limits.cpuQuota then
          let qpath := pathJoin cpuCgPath "cpu.cfs_quota_us"
          if ok qpath then
            { writes := step1.writes ++ [(qpath, toString limits.cpuQuota)], err := none }
          else
            { writes := step1.writes, err := some "failed to set cpu quota" }
        else step1
      if step2.err.isSome then step2
      else if 0 < limits.cpuPeriod then
        let ppath := pathJoin cpuCgPath "cpu.cfs_period_us"
        if ok ppath then
          { writes := step2.writes ++ [(ppath, toString (u64 limits.cpuPeriod))], err := none }
        else
          { writes := step2.writes, err := some "failed to set cpu period" }
      else step2

/-- Embedding of applyMemoryLimits from pkg/cgroups.  On v2: memory.max
when MemoryLimit is positive (failure surfaced), then memory.swap.max with
the value MemorySwapLimit-MemoryLimit in uint64 arithmetic when
MemorySwapLimit is positive (failure logged and ignored).  On v1:
memory.limit_in_bytes (failure surfaced) and memory.memsw.limit_in_bytes
with the full MemorySwapLimit value (failure logged and ignored). -/
def applyMemoryLimits (cg : Cgroup) (limits : ResourceLimits) (ok : FsOracle) : CgResult :=
  if cg.path ≠ "" then
    let step1 : CgResult :=
      if 0 < limits.memoryLimit then
        let mpath := pathJoin cg.path "memory.max"
        if ok mpath then
          { writes := [(mpath, toString (u64 limits.memoryLimit))], err := none }
        else
          { writes := [], err := some "failed to set memory.max" }
      else
        { writes := [], err := none }
    if step1.err.isSome then step1
    else if 0 < limits.memorySwapLimit then
      let spath := pathJoin cg.path "memory.swap.max"
      if ok spath then
        { writes := step1.writes ++
            [(spath, toString (u64sub limits.memorySwapLimit limits.memoryLimit))]
          err := none }
      else
        step1
    else step1
  else
    let memCgPath := pathJoin (pathJoin "/sys/fs/cgroup" "memory") cg.name
    let step1 : CgResult :=
      if 0 < limits.memoryLimit then
        let mpath := pathJoin memCgPath "memory.limit_in_bytes"
        if ok mpath then
          { writes := [(mpath, toString (u64 limits.memoryLimit))], err := none }
        else
          { writes := [], err := some "failed to set memory limit" }
      else
        { writes := [], err := none }
    if step1.err.isSome then step1
    else if 0 < limits.memorySwapLimit then
      let spath := pathJoin memCgPath "memory.memsw.limit_in_bytes"
      if ok spath then
        { writes := step1.writes ++ [(spath, toString (u64 limits.memorySwapLimit))]
          err := none }
      else
        step1
    else step1

/-- Embedding of applyPidsLimits from pkg/cgroups: a single write of
pids.max on the unified path (v2) or the pids controller directory (v1). -/
def applyPidsLimits (cg : Cgroup) (limits : ResourceLimits) (ok : FsOracle) : CgResult :=
  if cg.path ≠ "" then
    let ppath := pathJoin cg.path "pids.max"
    if ok ppath then
      { writes := [(ppath, toString limits.pidsLimit)], err := none }
    else
      { writes := [], err := some "failed to set pids.max" }
  else
    let ppath := pathJoin (pathJoin (pathJoin "/sys/fs/cgroup" "pids") cg.name) "pids.max"
    if ok ppath then
      { writes := [(ppath, toString limits.pidsLimit)], err := none }
    else
      { writes := [], err := some "failed to set pids.max" }

/-- Embedding of Cgroup.SetResourceLimits: apply CPU limits, then memory
limits, then (only when PidsLimit is positive) pids limits, surfacing the
first error and not attempting later stages after a failure. -/
def SetResourceLimits (cg : Cgroup) (limits : ResourceLimits) (ok : FsOracle) : CgResult :=
  let rc := applyCpuLimits cg limits ok
  if rc.err.isSome then rc
  else
    let rm := applyMemoryLimits cg limits ok
    if rm.err.isSome then { writes := rc.writes ++ rm.writes, err := rm.err }
    else if 0 < limits.pidsLimit then
      let rp := applyPidsLimits cg limits ok
      { writes := rc.writes ++ rm.writes ++ rp.writes, err := rp.err }
    else
      { writes := rc.writes ++ rm.writes, err := none }

/-- Successful writes of a result that landed on the given path, in order. -/
def writesTo (ws : List (String × String)) (p : String) : List String :=
  (ws.filter (fun w => w.1 = p)).map (fun w => w.2)

/-- Association-list lookup with Go map semantics (keys are container ids). -/
def lookupA {β : Type} : List (String × β) → String → Option β
  | [], _ => none
  | (k, v) :: rest, key => if k = key then some v else lookupA rest key

/-- Association-list removal of every binding of a key (Go delete). -/
def eraseA {β : Type} : List (String × β) → String → List (String × β)
  | [], _ => []
  | (k, v) :: rest, key => if k = key then eraseA rest key else (k, v) :: eraseA rest key

/-- Association-list insertion with Go map semantics: the new binding
replaces any previous binding of the key. -/
def insertA {β : Type} (m : List (String × β)) (key : String) (v : β) : List (String × β) :=
  (key, v) :: eraseA m key

/-- ContainerState from pkg/state/store.go: the persisted record.  The
creation time is modelled as Unix seconds. -/
structure ContainerState where
  id : String
  pid : Int
  status : String
  command : List String
  rootfs : String
  created : Int
  limits : ResourceLimits
deriving DecidableEq, Repr

/-- Process handle inside an exec.Cmd (os.Process, identified by its pid). -/
structure GoProcess where
  pid : Int
deriving DecidableEq, Repr

/-- Skeleton of an exec.Cmd: the Process field is nil until Start succeeds. -/
structure GoCmd where
  process : Option GoProcess
deriving DecidableEq, Repr

/-- Runner from pkg/container (src/unnamed/part_003 with the Detach and
PtyFile fields of the revision in src/unnamed/part_004): cmd is nil until
Start assigns it, cgroup is the handle built by NewRunner. -/
structure Runner where
  id : String
  command : List String
  rootfs : String
  cgroup : Option Cgroup
  cmd : Option GoCmd
  detach : Bool
  ptyFile : Bool
deriving DecidableEq, Repr

/-- Predicate mirroring the Go guard r.Cmd == nil || r.Cmd.Process == nil. -/
def Runner.started (r : Runner) : Bool :=
  match r.cmd with
  | none => false
  | some c => c.process.isSome

/-- Runner.Wait: errors out when the child was never started, otherwise
returns the outcome of the blocking cmd.Wait call (supplied externally). -/
def Runner.wait (r : Runner) (res : Except String Unit) : Except String Unit :=
  match r.cmd with
  | none => .error "container not started"
  | some c =>
    match c.process with
    | none => .error "container not started"
    | some _ => res

/-- Runner.Stop: errors out when the child was never started, otherwise
delivers SIGTERM to the process. -/
def Runner.stop (r : Runner) : Except String Unit :=
  match r.cmd with
  | none => .error "container not started"
  | some c =>
    match c.process with
    | none => .error "container not started"
    | some _ => .ok ()

/-- Runner.Kill: errors out when the child was never started, otherwise
delivers SIGKILL to the process. -/
def Runner.kill (r : Runner) : Except String Unit :=
  match r.cmd with
  | none => .error "container not started"
  | some c =>
    match c.process with
    | none => .error "container not started"
    | some _ => .ok ()

/-- Runner.PID: zero when the child was never started. -/
def Runner.pid (r : Runner) : Int :=
  match r.cmd with
  | none => 0
  | some c =>
    match c.process with
    | none => 0
    | some p => p.pid

/-- Observable external effects of the daemon and runner operations. -/
inductive Event where
  | cgDelete (name : String)
  | spawned (id : String)
  | sigterm (id : String)
  | sigkill (id : String)
  | cleanup (id : String)
  | monitorStart (id : String)
deriving DecidableEq, Repr

/-- Runner.Cleanup from src/unnamed/part_003: closes nothing here, deletes
the cgroup when one is owned (a failed delete is only logged), and always
returns nil.  The invocation itself and the cgroup deletion are recorded
as events. -/
def Runner.cleanupEvents (r : Runner) : List Event :=
  Event.cleanup r.id ::
    (match r.cgroup with
     | none => []
     | some cg => [Event.cgDelete cg.name])

/-- Environment for the create/start pipeline: outcomes of the probes and
syscalls the code performs, which the embedding takes as inputs. -/
structure CreateEnv where
  rootfsExists : Bool
  cgV2 : Bool
  cgCreateOk : Bool
  fsOk : FsOracle
  initExists : Bool
  startOk : Bool
  addProcessOk : Bool
  childPid : Int
  saveCreatedOk : Bool
  saveRunningOk : Bool
  saveExitedOk : Bool

/-- NewRunner from src/unnamed/part_003 (the cgroup-enabled revision named
by the specification, with the detach parameter the daemon passes):
validates the command and rootfs, builds and creates the cgroup, applies
the resource limits, and deletes the cgroup again when applying them
fails. -/
def NewRunner (id : String) (command : List String) (rootfs : String)
    (limits : ResourceLimits) (detach : Bool) (env : CreateEnv) :
    Except String Runner × List Event :=
  if command.isEmpty then (.error "command cannot be empty", [])
  else if rootfs = "" then (.error "rootfs cannot be empty", [])
  else if ¬ env.rootfsExists then
    (.error ("rootfs directory doesn't exist: " ++ rootfs), [])
  else
    let cg := NewCgroup id [Controller.cpu, Controller.memory, Controller.pids] env.cgV2
    if ¬ env.cgCreateOk then
      (.error "failed to create cgroup directories", [])
    else
      let rl := SetResourceLimits cg limits env.fsOk
      match rl.err with
      | some e =>
        (.error ("failed to set resource limits: " ++ e), [Event.cgDelete cg.name])
      | none =>
        (.ok { id := id, command := command, rootfs := rootfs, cgroup := some cg
               cmd := none, detach := detach, ptyFile := false }, [])

/-- Runner.Start from src/unnamed/part_003 (with the detached/attached
split of src/unnamed/part_004): locate container-init, assign r.Cmd,
spawn (directly or through the PTY), then add the child to the cgroup and
kill it when that fails.  Returns the error, the mutated runner, and the
events. -/
def Runner.start (r : Runner) (env : CreateEnv) :
    Except String Unit × Runner × List Event :=
  if ¬ env.initExists then
    (.error "container-init binary not found", r, [])
  else
    let r1 : Runner := { r with cmd := some { process := none } }
    if ¬ env.startOk then
      (.error "failed to start container process", r1, [])
    else
      let r2 : Runner :=
        { r1 with cmd := some { process := some { pid := env.childPid } }
                  ptyFile := ¬ r.detach }
      if env.addProcessOk then
        (.ok (), r2, [Event.spawned r2.id])
      else
        (.error "failed to add process to cgroup", r2,
          [Event.spawned r2.id, Event.sigkill r2.id])

/-- In-memory daemon registry plus the on-disk store, from
src/pkg/daemon/daemon.go: two maps keyed by container id, and the state
directory contents as a map from id to the last successfully saved
record. -/
structure DaemonState where
  containers : List (String × ContainerState)
  runners : List (String × Runner)
  store : List (String × ContainerState)
deriving DecidableEq, Repr

/-- addContainer from src/pkg/daemon/daemon.go: insert into the in-memory
map, persist to disk, and on a failed save delete the id from the
in-memory map again and return an error. -/
def addContainer (d : DaemonState) (cs : ContainerState) (saveOk : Bool) :
    DaemonState × Option String :=
  let d1 : DaemonState := { d with containers := insertA d.containers cs.id cs }
  if saveOk then
    ({ d1 with store := insertA d1.store cs.id cs }, none)
  else
    ({ d1 with containers := eraseA d1.containers cs.id },
      some "failed to save container state")

/-- updateContainer from src/pkg/daemon/daemon.go: overwrite the in-memory
map, persist to disk, and on a failed save return an error without undoing
the in-memory update. -/
def updateContainer (d : DaemonState) (cs : ContainerState) (saveOk : Bool) :
    DaemonState × Option String :=
  let d1 : DaemonState := { d with containers := insertA d.containers cs.id cs }
  if saveOk then
    ({ d1 with store := insertA d1.store cs.id cs }, none)
  else
    (d1, some "failed to save container state")

/-- removeContainer from src/pkg/daemon/daemon.go: delete from the
in-memory map first, then from disk. -/
def removeContainer (d : DaemonState) (id : String) (deleteOk : Bool) :
    DaemonState × Option String :=
  let d1 : DaemonState := { d with containers := eraseA d.containers id }
  if deleteOk then
    ({ d1 with store := eraseA d1.store id }, none)
  else
    (d1, some "failed to delete container state")

/-- getContainer from src/pkg/daemon/daemon.go (read-only lookup). -/
def getContainer (d : DaemonState) (id : String) : Option ContainerState :=
  lookupA d.containers id

/-- getRunner from src/pkg/daemon/daemon.go (read-only lookup). -/
def getRunner (d : DaemonState) (id : String) : Option Runner :=
  lookupA d.runners id

/-- addRunner from src/pkg/daemon/daemon.go. -/
def addRunner (d : DaemonState) (id : String) (r : Runner) : DaemonState :=
  { d with runners := insertA d.runners id r }

/-- removeRunner from src/pkg/daemon/daemon.go. -/
def removeRunner (d : DaemonState) (id : String) : DaemonState :=
  { d with runners := eraseA d.runners id }

/-- monitorContainer from src/unnamed/part_007, entered after the blocking
runner.Wait() call has returned with the given result (the result is only
logged).  When the record is still present: update it to status exited and
PID zero (persisting via updateContainer, whose failure is only logged),
invoke Runner.Cleanup, and remove the runner from the registry.  The
record itself is never deleted. -/
def monitorContainer (d : DaemonState) (id : String) (r : Runner)
    (waitRes : Except String Unit) (saveOk : Bool) : DaemonState × List Event :=
  let _ := Runner.wait r waitRes
  match getContainer d id with
  | none => (d, [])
  | some cs =>
    let cs1 : ContainerState := { cs with status := "exited", pid := 0 }
    let (d1, _) := updateContainer d cs1 saveOk
    let evs := Runner.cleanupEvents r
    (removeRunner d1 id, evs)

/-- Outcome of the 5-second WaitWithTimeout call inside StopContainer:
either the child's Wait returned within the timeout (carrying the error
value it produced, nil or not), or the timeout elapsed first. -/
inductive StopWaitRes where
  | exited (err : Option String)
  | timedOut
deriving DecidableEq, Repr

/-- Runner.WaitWithTimeout from src/unnamed/part_003: the not-started
guard, then the race between cmd.Wait and the timer; returns exactly the
error produced by the side that wins. -/
def Runner.waitWithTimeout (r : Runner) (res : StopWaitRes) : Option String :=
  match r.cmd with
  | none => some "container not started"
  | some c =>
    match c.process with
    | none => some "container not started"
    | some _ =>
      match res with
      | .exited e => e
      | .timedOut => some "timeout waiting for container to exit"

/-- StopContainer from src/unnamed/part_007: reject when the record is
missing or not in status running; otherwise fetch the runner, send
SIGTERM, wait up to five seconds, and send SIGKILL whenever that wait
returns a non-nil error.  The registry and the store are never written:
the state transition is left to the monitor. -/
def StopContainer (d : DaemonState) (id : String) (waitRes : StopWaitRes) :
    DaemonState × List Event × Option String :=
  match getContainer d id with
  | none => (d, [], some ("container not found: " ++ id))
  | some cs =>
    if cs.status ≠ "running" then
      (d, [], some ("container is not running (status: " ++ cs.status ++ ")"))
    else
      match getRunner d id with
      | none => (d, [], some ("runner not found for container " ++ id))
      | some r =>
        match r.stop with
        | .error e => (d, [], some ("failed to send SIGTERM: " ++ e))
        | .ok _ =>
          match r.waitWithTimeout waitRes with
          | none => (d, [Event.sigterm id], none)
          | some _ =>
            match r.kill with
            | .error e => (d, [Event.sigterm id], some ("failed to kill container: " ++ e))
            | .ok _ => (d, [Event.sigterm id, Event.sigkill id], none)

/-- StartContainerWithRunner from src/unnamed/part_007: look the record
up, reject when already running, build the runner (NewRunner), start it
(cleaning up on a failed start), flip the record to running with the
child's PID (killing and cleaning up when persisting that fails), register
the runner and spawn the monitor task. -/
def StartContainerWithRunner (d : DaemonState) (id : String) (detach : Bool)
    (env : CreateEnv) : DaemonState × Except String Runner × List Event :=
  match getContainer d id with
  | none => (d, .error ("container not found: " ++ id), [])
  | some cs =>
    if cs.status = "running" then
      (d, .error "container is already running", [])
    else
      match NewRunner id cs.command cs.rootfs cs.limits detach env with
      | (.error e, evs) => (d, .error ("failed to create runner: " ++ e), evs)
      | (.ok r0, evs) =>
        match r0.start env with
        | (.error e, r1, evs2) =>
          (d, .error ("failed to start container process: " ++ e),
            evs ++ evs2 ++ r1.cleanupEvents)
        | (.ok _, r1, evs2) =>
          let cs1 : ContainerState := { cs with pid := r1.pid, status := "running" }
          let d1 : DaemonState := { d with containers := insertA d.containers id cs1 }
          let (d2, uerr) := updateContainer d1 cs1 env.saveRunningOk
          match uerr with
          | some e =>
            (d2, .error ("failed to update container state: " ++ e),
              evs ++ evs2 ++ [Event.sigkill id] ++ r1.cleanupEvents)
          | none =>
            (addRunner d2 id r1, .ok r1,
              evs ++ evs2 ++ [Event.monitorStart id])

/-- CreateContainer from src/unnamed/part_007: build the record in status
created, add it to registry and disk, start it, and on any start failure
flip the current record to status exited (persisting; that save's own
failure is ignored) before surfacing the error with an empty id. -/
def CreateContainer (d : DaemonState) (command : List String) (rootfs : String)
    (limits : ResourceLimits) (detach : Bool) (id : String) (now : Int)
    (env : CreateEnv) : DaemonState × Except String String × List Event :=
  let cs : ContainerState :=
    { id := id, pid := 0, status := "created", command := command
      rootfs := rootfs, created := now, limits := limits }
  let (d1, aerr) := addContainer d cs env.saveCreatedOk
  match aerr with
  | some e => (d1, .error ("failed to add container: " ++ e), [])
  | none =>
    let (d2, res, evs) := StartContainerWithRunner d1 id detach env
    match res with
    | .error e =>
      let cur := (getContainer d2 id).getD cs
      let (d3, _) := updateContainer d2 { cur with status := "exited" } env.saveExitedOk
      (d3, .error ("failed to start container: " ++ e), evs)
    | .ok _ => (d2, .ok id, evs)

/-- Boot reconciliation step of loadContainers from
src/pkg/daemon/daemon.go for one loaded record: a record in status running
with positive PID is probed with signal 0 and marked exited with PID zero
in both the dead and the alive branch; every other record is returned
unchanged. -/
def bootRecord (cs : ContainerState) (alive : Bool) : ContainerState :=
  if cs.status = "running" ∧ 0 < cs.pid then
    if ¬ alive then { cs with status := "exited", pid := 0 }
    else { cs with status := "exited", pid := 0 }
  else cs

/-- Recursion of loadContainers over the records the store returned,
threading the in-memory map and the on-disk store.  Records in status
running with positive PID are saved back after being marked exited (a
failed save is only logged); every record is then inserted into the
in-memory map. -/
def bootLoad (recs : List ContainerState) (alive : String → Bool)
    (saveOk : String → Bool) (reg : List (String × ContainerState))
    (store : List (String × ContainerState)) :
    List (String × ContainerState) × List (String × ContainerState) :=
  match recs with
  | [] => (reg, store)
  | cs :: rest =>
    if cs.status = "running" ∧ 0 < cs.pid then
      let cs1 := bootRecord cs (alive cs.id)
      let store1 := if saveOk cs.id then insertA store cs.id cs1 else store
      bootLoad rest alive saveOk (insertA reg cs.id cs1) store1
    else
      bootLoad rest alive saveOk (insertA reg cs.id cs) store

/-- loadContainers from src/pkg/daemon/daemon.go, over the list of records
the store enumerated, starting from an empty in-memory map and the store
contents as found on disk. -/
def loadContainers (recs : List ContainerState) (alive : String → Bool)
    (saveOk : String → Bool) (diskStore : List (String × ContainerState)) :
    List (String × ContainerState) × List (String × ContainerState) :=
  bootLoad recs alive saveOk [] diskStore

/-- Character table of encoding/hex, exactly the Go constant hextable. -/
def hexTable : List Char := "0123456789abcdef".data

/-- Single hex digit lookup (valid for inputs below 16). -/
def hexDigit (n : Nat) : Char := hexTable.getD n '0'

/-- hex.EncodeToString character stream: each byte becomes its high then
its low nibble. -/
def hexEncodeBytes : List Nat → List Char
  | [] => []
  | b :: rest => hexDigit (b / 16) :: hexDigit (b % 16) :: hexEncodeBytes rest

/-- generateContainerID from src/pkg/daemon/daemon.go: hex encoding of the
six bytes that crypto/rand filled in. -/
def generateContainerID (randBytes : List Nat) : String :=
  String.mk (hexEncodeBytes randBytes)

/-! Association-list lemmas used throughout. -/

theorem lookupA_insertA_self {β : Type} (m : List (String × β)) (k : String) (v : β) :
    lookupA (insertA m k v) k = some v := by
  simp [insertA, lookupA]

theorem lookupA_eraseA_ne {β : Type} (m : List (String × β)) (k k' : String)
    (h : k ≠ k') : lookupA (eraseA m k) k' = lookupA m k' := by
  induction m with
  | nil => simp [eraseA]
  | cons hd tl ih =>
    obtain ⟨k0, v0⟩ := hd
    by_cases hk : k0 = k
    · subst hk
      simp [eraseA, lookupA, ih, h]
    · simp only [eraseA, if_neg hk, lookupA]
      by_cases hk' : k0 = k'
      · simp [hk']
      · simp [hk', ih]

theorem lookupA_insertA_ne {β : Type} (m : List (String × β)) (k k' : String) (v : β)
    (h : k ≠ k') : lookupA (insertA m k v) k' = lookupA m k' := by
  simp [insertA, lookupA, if_neg h, lookupA_eraseA_ne m k k' h]

theorem eraseA_eraseA {β : Type} (m : List (String × β)) (k : String) :
    eraseA (eraseA m k) k = eraseA m k := by
  induction m with
  | nil => simp [eraseA]
  | cons hd tl ih =>
    obtain ⟨k0, v0⟩ := hd
    by_cases hk : k0 = k
    · simp [eraseA, hk, ih]
    · simp [eraseA, hk, ih]

theorem eraseA_of_lookupA_none {β : Type} (m : List (String × β)) (k : String)
    (h : lookupA m k = none) : eraseA m k = m := by
  induction m with
  | nil => simp [eraseA]
  | cons hd tl ih =>
    obtain ⟨k0, v0⟩ := hd
    simp only [lookupA] at h
    by_cases hk : k0 = k
    · simp [hk] at h
    · simp only [eraseA, if_neg hk, List.cons.injEq, true_and]
      exact ih (by simpa [hk] using h)

theorem lookupA_eraseA_self {β : Type} (m : List (String × β)) (k : String) :
    lookupA (eraseA m k) k = none := by
  induction m with
  | nil => simp [eraseA, lookupA]
  | cons hd tl ih =>
    obtain ⟨k0, v0⟩ := hd
    by_cases hk : k0 = k
    · simp [eraseA, hk, ih]
    · simp [eraseA, hk, lookupA, ih]

/-- C9: updateContainer is not atomic on a failed disk write: the error is
returned while the in-memory map already holds the new record, and the
on-disk store is left unchanged, so the two views diverge.  This theorem
states it for every daemon state and record: with the save failing, the
call errors, the containers map equals the map with the new record
inserted (no rollback, unlike addContainer), the new record is what a
lookup now returns, and the store is untouched. -/
theorem updateContainer_not_atomic (d : DaemonState) (cs : ContainerState) :
    (updateContainer d cs false).2.isSome = true ∧
    (updateContainer d cs false).1.containers = insertA d.containers cs.id cs ∧
    lookupA (updateContainer d cs false).1.containers cs.id = some cs ∧
    (updateContainer d cs false).1.store = d.store := by
  refine ⟨rfl, rfl, ?_, rfl⟩
  exact lookupA_insertA_self _ _ _

/-- C10: Wait, Stop and Kill on a Runner whose child was never started
(r.Cmd nil, or r.Cmd.Process nil after a failed Start) return the error
"container not started" instead of dereferencing a nil handle, and PID
returns 0 in that state. -/
theorem runner_not_started_guards (r : Runner) (res : Except String Unit)
    (h : r.started = false) :
    r.wait res = .error "container not started" ∧
    r.stop = .error "container not started" ∧
    r.kill = .error "container not started" ∧
    r.pid = 0 := by
  match hc : r.cmd with
  | none =>
    simp [Runner.wait, Runner.stop, Runner.kill, Runner.pid, hc]
  | some c =>
    match hp : c.process with
    | none =>
      simp [Runner.wait, Runner.stop, Runner.kill, Runner.pid, hc, hp]
    | some p =>
      exfalso
      simp [Runner.started, hc, hp] at h

/-- Witness for C10 at a concrete never-started runner. -/
theorem runner_not_started_guards_witness :
    ({ id := "c0", command := ["/bin/sh"], rootfs := "/tmp/r", cgroup := none
       cmd := none, detach := true, ptyFile := false } : Runner).started = false ∧
    (({ id := "c0", command := ["/bin/sh"], rootfs := "/tmp/r", cgroup := none
        cmd := none, detach := true, ptyFile := false } : Runner).wait (.ok ())
        = .error "container not started" ∧
     ({ id := "c0", command := ["/bin/sh"], rootfs := "/tmp/r", cgroup := none
        cmd := none, detach := true, ptyFile := false } : Runner).stop
        = .error "container not started" ∧
     ({ id := "c0", command := ["/bin/sh"], rootfs := "/tmp/r", cgroup := none
        cmd := none, detach := true, ptyFile := false } : Runner).kill
        = .error "container not started" ∧
     ({ id := "c0", command := ["/bin/sh"], rootfs := "/tmp/r", cgroup := none
        cmd := none, detach := true, ptyFile := false } : Runner).pid = 0) :=
  ⟨rfl, runner_not_started_guards _ (.ok ()) rfl⟩

/-! Hex-encoding lemmas for C8. -/

theorem hexEncodeBytes_length (bs : List Nat) :
    (hexEncodeBytes bs).length = 2 * bs.length := by
  induction bs with
  | nil => simp [hexEncodeBytes]
  | cons b rest ih =>
    simp only [hexEncodeBytes, List.length_cons, ih]
    omega

theorem hexDigit_mem_hexTable (n : Nat) (h : n < 16) : hexDigit n ∈ hexTable := by
  interval_cases n <;> decide

theorem hexEncodeBytes_mem (bs : List Nat) (hb : ∀ b ∈ bs, b < 256) :
    ∀ c ∈ hexEncodeBytes bs, c ∈ hexTable := by
  induction bs with
  | nil => simp [hexEncodeBytes]
  | cons b rest ih =>
    intro c hc
    have hblt : b < 256 := hb b (by simp)
    simp only [hexEncodeBytes, List.mem_cons] at hc
    rcases hc with h1 | h2 | h3
    · exact h1 ▸ hexDigit_mem_hexTable _ (by omega)
    · exact h2 ▸ hexDigit_mem_hexTable _ (by omega)
    · exact ih (fun x hx => hb x (by simp [hx])) c h3

/-- C8: every container id the daemon generates is the hex encoding of the
six random bytes crypto/rand produced: a string of exactly twelve
characters, each a lowercase hexadecimal digit. -/
theorem generateContainerID_twelve_hex (bs : List Nat) (hl : bs.length = 6)
    (hb : ∀ b ∈ bs, b < 256) :
    (generateContainerID bs).length = 12 ∧
    ∀ c ∈ (generateContainerID bs).data, c ∈ hexTable := by
  constructor
  · simp [generateContainerID, String.length, hexEncodeBytes_length, hl]
  · intro c hc
    exact hexEncodeBytes_mem bs hb c (by simpa [generateContainerID] using hc)

/-- Witness for C8 at a concrete six-byte random draw. -/
theorem generateContainerID_twelve_hex_witness :
    ([18, 171, 0, 255, 1, 156] : List Nat).length = 6 ∧
    ((generateContainerID [18, 171, 0, 255, 1, 156]).length = 12 ∧
     ∀ c ∈ (generateContainerID [18, 171, 0, 255, 1, 156]).data, c ∈ hexTable) :=
  ⟨by decide, generateContainerID_twelve_hex _ (by decide) (by decide)⟩

/-! Concrete fixtures for claims about the registry operations. -/

/-- Concrete record used in counterexamples. -/
def csFixture : ContainerState :=
  { id := "aabbccddeeff", pid := 0, status := "created", command := ["/bin/sh"]
    rootfs := "/tmp/rootfs", created := 100, limits := DefaultResourceLimits }

/-- Second record with the same id (a later creation re-using the id). -/
def csFixtureNew : ContainerState := { csFixture with created := 200 }

/-- Registry that already holds csFixture in memory and on disk. -/
def dFixture : DaemonState :=
  { containers := [("aabbccddeeff", csFixture)]
    runners := []
    store := [("aabbccddeeff", csFixture)] }

/-- Counterexample to C4 as stated: when the inserted id already has a
binding in the in-memory map and the disk write fails, the rollback
deletes the id outright, so the registry is NOT left exactly as it was
before the call (the pre-existing record is gone). -/
theorem addContainer_rollback_counterexample :
    (addContainer dFixture csFixtureNew false).2.isSome = true ∧
    (addContainer dFixture csFixtureNew false).1.containers ≠ dFixture.containers ∧
    lookupA (addContainer dFixture csFixtureNew false).1.containers "aabbccddeeff" = none ∧
    lookupA dFixture.containers "aabbccddeeff" = some csFixture := by
  refine ⟨rfl, ?_, rfl, rfl⟩
  decide

/-- C4 (amended): addContainer inserts the record into the in-memory map
and then writes it to the store; when the disk write fails it removes the
id from the in-memory map and returns an error.  When the id was not
already present — the case for the freshly generated ids the daemon uses —
this leaves the registry exactly as it was before the call; a pre-existing
binding of the same id, however, is deleted rather than restored. -/
theorem addContainer_rollback (d : DaemonState) (cs : ContainerState)
    (h : lookupA d.containers cs.id = none) :
    ((addContainer d cs true).1.containers = insertA d.containers cs.id cs ∧
     (addContainer d cs true).1.store = insertA d.store cs.id cs ∧
     (addContainer d cs true).2 = none) ∧
    ((addContainer d cs false).2.isSome = true ∧
     (addContainer d cs false).1.containers = d.containers ∧
     (addContainer d cs false).1.store = d.store) := by
  refine ⟨⟨rfl, rfl, rfl⟩, rfl, ?_, rfl⟩
  show eraseA (insertA d.containers cs.id cs) cs.id = d.containers
  have h1 : eraseA (insertA d.containers cs.id cs) cs.id = eraseA d.containers cs.id := by
    simp [insertA, eraseA, eraseA_eraseA]
  rw [h1, eraseA_of_lookupA_none _ _ h]

/-- Witness for C4 at a fresh id over the empty registry. -/
theorem addContainer_rollback_witness :
    lookupA (⟨[], [], []⟩ : DaemonState).containers csFixture.id = none ∧
    (((addContainer ⟨[], [], []⟩ csFixture true).1.containers
        = insertA (⟨[], [], []⟩ : DaemonState).containers csFixture.id csFixture ∧
      (addContainer ⟨[], [], []⟩ csFixture true).1.store
        = insertA (⟨[], [], []⟩ : DaemonState).store csFixture.id csFixture ∧
      (addContainer ⟨[], [], []⟩ csFixture true).2 = none) ∧
     ((addContainer ⟨[], [], []⟩ csFixture false).2.isSome = true ∧
      (addContainer ⟨[], [], []⟩ csFixture false).1.containers
        = (⟨[], [], []⟩ : DaemonState).containers ∧
      (addContainer ⟨[], [], []⟩ csFixture false).1.store
        = (⟨[], [], []⟩ : DaemonState).store)) :=
  ⟨rfl, addContainer_rollback _ _ rfl⟩

/-- Helper for C1: StopContainer returns the daemon state it was given in
every branch — it reads the registry and signals, but performs no write to
the containers map, the runners map, or the store. -/
theorem stopContainer_preserves_state (d : DaemonState) (id : String)
    (w : StopWaitRes) : (StopContainer d id w).1 = d := by
  unfold StopContainer
  rcases getContainer d id with _ | cs
  · rfl
  · simp only
    split
    · rfl
    · rcases getRunner d id with _ | r
      · rfl
      · simp only
        rcases Runner.stop r with e | u
        · rfl
        · rcases Runner.waitWithTimeout r w with _ | e
          · rfl
          · simp only
            rcases Runner.kill r with e | u <;> rfl

/-- Started runner fixture matching csFixture's id. -/
def rFixture : Runner :=
  { id := "aabbccddeeff", command := ["/bin/sh"], rootfs := "/tmp/rootfs"
    cgroup := some (NewCgroup "aabbccddeeff"
      [Controller.cpu, Controller.memory, Controller.pids] true)
    cmd := some { process := some { pid := 4242 } }
    detach := true, ptyFile := false }

/-- Fixture record in status running with the runner's PID. -/
def csRunningFixture : ContainerState :=
  { csFixture with status := "running", pid := 4242 }

/-- Registry holding the running fixture container and its runner. -/
def dRunFixture : DaemonState :=
  { containers := [("aabbccddeeff", csRunningFixture)]
    runners := [("aabbccddeeff", rFixture)]
    store := [("aabbccddeeff", csRunningFixture)] }

/-- C1: the monitor task is the sole writer of the running-to-exited
transition.  When Runner.Wait returns and the record is present (with a
successful persist), the monitor sets the record to status exited with PID
zero in the registry, persists that record to the store, invokes
Runner.Cleanup, and removes the runner from the registry while the record
itself stays; and StopContainer returns the daemon state unchanged in
every branch, so it never updates any container's status or PID. -/
theorem monitor_sole_writer (d : DaemonState) (id : String) (r : Runner)
    (waitRes : Except String Unit) (cs : ContainerState)
    (hc : getContainer d id = some cs) (hid : cs.id = id) :
    getContainer (monitorContainer d id r waitRes true).1 id
      = some { cs with status := "exited", pid := 0 } ∧
    lookupA (monitorContainer d id r waitRes true).1.store id
      = some { cs with status := "exited", pid := 0 } ∧
    Event.cleanup r.id ∈ (monitorContainer d id r waitRes true).2 ∧
    getRunner (monitorContainer d id r waitRes true).1 id = none ∧
    (∀ d2 id2 w2, (StopContainer d2 id2 w2).1 = d2) := by
  subst hid
  have hc' : lookupA d.containers cs.id = some cs := hc
  refine ⟨?_, ?_, ?_, ?_, fun d2 id2 w2 => stopContainer_preserves_state d2 id2 w2⟩
  all_goals
    simp [monitorContainer, hc', updateContainer, removeRunner, getContainer, getRunner,
      Runner.cleanupEvents, lookupA_insertA_self, lookupA_eraseA_self]

/-- Witness for C1 at the running fixture container. -/
theorem monitor_sole_writer_witness :
    getContainer dRunFixture "aabbccddeeff" = some csRunningFixture ∧
    csRunningFixture.id = "aabbccddeeff" ∧
    (getContainer (monitorContainer dRunFixture "aabbccddeeff" rFixture (.ok ()) true).1
        "aabbccddeeff" = some { csRunningFixture with status := "exited", pid := 0 } ∧
     lookupA (monitorContainer dRunFixture "aabbccddeeff" rFixture (.ok ()) true).1.store
        "aabbccddeeff" = some { csRunningFixture with status := "exited", pid := 0 } ∧
     Event.cleanup rFixture.id
        ∈ (monitorContainer dRunFixture "aabbccddeeff" rFixture (.ok ()) true).2 ∧
     getRunner (monitorContainer dRunFixture "aabbccddeeff" rFixture (.ok ()) true).1
        "aabbccddeeff" = none ∧
     (∀ d2 id2 w2, (StopContainer d2 id2 w2).1 = d2)) :=
  ⟨rfl, rfl, monitor_sole_writer dRunFixture "aabbccddeeff" rFixture (.ok ())
    csRunningFixture rfl rfl⟩

/-- Counterexample to C5 as stated: for a running container whose child
exits within the five-second wait but whose Wait reports an error (the
usual outcome of a SIGTERM death, which cmd.Wait surfaces as a non-nil
exit error), StopContainer sends SIGKILL even though the wait did not time
out. -/
theorem stop_sigkill_counterexample :
    StopWaitRes.exited (some "signal: terminated") ≠ StopWaitRes.timedOut ∧
    (StopContainer dRunFixture "aabbccddeeff"
        (StopWaitRes.exited (some "signal: terminated"))).2.1
      = [Event.sigterm "aabbccddeeff", Event.sigkill "aabbccddeeff"] :=
  ⟨by decide, rfl⟩

/-- C5 (amended): StopContainer returns a state error and sends no signal
whenever the target exists with a status other than running (so a repeated
Stop after the monitor's transition never signals, let alone double-kills);
for a running container with a started runner it sends SIGTERM and then
sends SIGKILL exactly when the five-second WaitWithTimeout returns a
non-nil error — which happens on timeout, but also when the child's own
Wait reports an error such as a signal-caused exit. -/
theorem stop_container_signals (d : DaemonState) (id : String) (w : StopWaitRes)
    (cs : ContainerState) (hc : getContainer d id = some cs) :
    (cs.status ≠ "running" →
      (StopContainer d id w).2.2.isSome = true ∧ (StopContainer d id w).2.1 = []) ∧
    (∀ r, cs.status = "running" → getRunner d id = some r → r.started = true →
      (StopContainer d id w).2.1 =
        if r.waitWithTimeout w = none then [Event.sigterm id]
        else [Event.sigterm id, Event.sigkill id]) := by
  have hc' : lookupA d.containers id = some cs := hc
  constructor
  · intro hs
    simp [StopContainer, getContainer, hc', hs]
  · intro r hs hr hst
    have hr' : lookupA d.runners id = some r := hr
    match hcmd : r.cmd with
    | none => simp [Runner.started, hcmd] at hst
    | some c =>
      match hproc : c.process with
      | none => simp [Runner.started, hcmd, hproc] at hst
      | some p =>
        have hstop : r.stop = .ok () := by simp [Runner.stop, hcmd, hproc]
        have hkill : r.kill = .ok () := by simp [Runner.kill, hcmd, hproc]
        rcases hw : r.waitWithTimeout w with _ | e
        · simp [StopContainer, getContainer, getRunner, hc', hs, hr', hstop, hw]
        · simp [StopContainer, getContainer, getRunner, hc', hs, hr', hstop, hkill, hw]

/-- Witness for C5 at the running fixture container with a timed-out wait:
SIGTERM then SIGKILL are delivered. -/
theorem stop_container_signals_witness :
    (StopContainer dRunFixture "aabbccddeeff" StopWaitRes.timedOut).2.1
      = [Event.sigterm "aabbccddeeff", Event.sigkill "aabbccddeeff"] := by
  have h := (stop_container_signals dRunFixture "aabbccddeeff" StopWaitRes.timedOut
    csRunningFixture rfl).2 rFixture rfl rfl rfl
  rw [h]
  decide

/-- Helper: bootLoad never touches a key that none of the remaining
records carries. -/
theorem bootLoad_lookup_frozen (recs : List ContainerState)
    (alive saveOk : String → Bool) (k : String) :
    ∀ (reg store : List (String × ContainerState)),
    (∀ cs ∈ recs, cs.id ≠ k) →
    lookupA (bootLoad recs alive saveOk reg store).1 k = lookupA reg k ∧
    lookupA (bootLoad recs alive saveOk reg store).2 k = lookupA store k := by
  induction recs with
  | nil => intro reg store _; exact ⟨rfl, rfl⟩
  | cons cs rest ih =>
    intro reg store h
    have hcs : cs.id ≠ k := h cs (by simp)
    have hrest : ∀ c ∈ rest, c.id ≠ k := fun c hc => h c (List.mem_cons_of_mem _ hc)
    by_cases hrun : cs.status = "running" ∧ 0 < cs.pid
    · simp only [bootLoad, if_pos hrun]
      obtain ⟨h1, h2⟩ := ih _ _ hrest
      refine ⟨by rw [h1, lookupA_insertA_ne _ _ _ _ hcs], ?_⟩
      rw [h2]
      by_cases hs : saveOk cs.id
      · simp [hs, lookupA_insertA_ne _ _ _ _ hcs]
      · simp [hs]
    · simp only [bootLoad, if_neg hrun]
      obtain ⟨h1, h2⟩ := ih _ _ hrest
      exact ⟨by rw [h1, lookupA_insertA_ne _ _ _ _ hcs], h2⟩

/-- Helper: per-member effect of bootLoad when the loaded ids are
pairwise distinct. -/
theorem bootLoad_member (recs : List ContainerState) (alive saveOk : String → Bool)
    (cs : ContainerState) :
    ∀ (reg store : List (String × ContainerState)),
    cs ∈ recs → (recs.map ContainerState.id).Nodup →
    (cs.status = "running" ∧ 0 < cs.pid →
      lookupA (bootLoad recs alive saveOk reg store).1 cs.id
        = some { cs with status := "exited", pid := 0 } ∧
      (saveOk cs.id = true →
        lookupA (bootLoad recs alive saveOk reg store).2 cs.id
          = some { cs with status := "exited", pid := 0 })) ∧
    (¬ (cs.status = "running" ∧ 0 < cs.pid) →
      lookupA (bootLoad recs alive saveOk reg store).1 cs.id = some cs) := by
  induction recs with
  | nil => intro reg store hmem _; exact absurd hmem (List.not_mem_nil cs)
  | cons hd rest ih =>
    intro reg store hmem hnd
    have hndrest : (rest.map ContainerState.id).Nodup := (List.nodup_cons.mp hnd).2
    rcases List.mem_cons.mp hmem with heq | hmemrest
    · subst heq
      have hnotin : ∀ c ∈ rest, c.id ≠ cs.id := by
        intro c hc hce
        exact (List.nodup_cons.mp hnd).1 (hce ▸ List.mem_map_of_mem ContainerState.id hc)
      constructor
      · intro hrun
        simp only [bootLoad, if_pos hrun]
        have hb : bootRecord cs (alive cs.id) = { cs with status := "exited", pid := 0 } := by
          by_cases ha : alive cs.id <;> simp [bootRecord, hrun, ha]
        obtain ⟨h1, h2⟩ := bootLoad_lookup_frozen rest alive saveOk cs.id _ _ hnotin
        refine ⟨by rw [h1, hb, lookupA_insertA_self], ?_⟩
        intro hs
        rw [h2]
        simp [hs, hb, lookupA_insertA_self]
      · intro hrun
        simp only [bootLoad, if_neg hrun]
        obtain ⟨h1, _⟩ := bootLoad_lookup_frozen rest alive saveOk cs.id _ _ hnotin
        rw [h1, lookupA_insertA_self]
    · by_cases hrun : hd.status = "running" ∧ 0 < hd.pid
      · simp only [bootLoad, if_pos hrun]
        exact ih _ _ hmemrest hndrest
      · simp only [bootLoad, if_neg hrun]
        exact ih _ _ hmemrest hndrest

/-- Record in status running with PID 0, as a daemon crash after an
in-place status write (or a hand-edited state file) could leave on disk. -/
def csBootRunning0 : ContainerState :=
  { id := "bb00bb00bb00", pid := 0, status := "running", command := ["/bin/sleep", "60"]
    rootfs := "/tmp/rootfs", created := 50, limits := DefaultResourceLimits }

/-- Counterexample to C2 as stated: a loaded record with status=running
but PID 0 is NOT reduced to exited — the guard in loadContainers also
requires PID>0 — and no updated record is persisted; the record enters
the registry still marked running. -/
theorem boot_reconciliation_counterexample :
    csBootRunning0.status = "running" ∧
    lookupA (loadContainers [csBootRunning0] (fun _ => false) (fun _ => true) []).1
        "bb00bb00bb00" = some csBootRunning0 ∧
    csBootRunning0.status ≠ "exited" ∧
    (loadContainers [csBootRunning0] (fun _ => false) (fun _ => true) []).2 = [] :=
  ⟨rfl, rfl, by decide, rfl⟩

/-- C2 (amended): on daemon boot, every loaded record with status=running
AND a positive PID is reduced to status=exited with PID 0 and the update
is persisted, regardless of whether the signal-0 probe of the recorded PID
finds the process dead or alive; every other record — any other status, or
status=running with a non-positive PID — is loaded into the in-memory
registry unchanged. -/
theorem boot_reconciliation (recs : List ContainerState) (alive saveOk : String → Bool)
    (diskStore : List (String × ContainerState)) (cs : ContainerState)
    (hmem : cs ∈ recs) (hnd : (recs.map ContainerState.id).Nodup) :
    (cs.status = "running" ∧ 0 < cs.pid →
      lookupA (loadContainers recs alive saveOk diskStore).1 cs.id
        = some { cs with status := "exited", pid := 0 } ∧
      (saveOk cs.id = true →
        lookupA (loadContainers recs alive saveOk diskStore).2 cs.id
          = some { cs with status := "exited", pid := 0 })) ∧
    (¬ (cs.status = "running" ∧ 0 < cs.pid) →
      lookupA (loadContainers recs alive saveOk diskStore).1 cs.id = some cs) :=
  bootLoad_member recs alive saveOk cs [] diskStore hmem hnd

/-- Record in status running with a positive PID, for the C2 witness. -/
def csBootRunning7 : ContainerState :=
  { csBootRunning0 with id := "bb11bb11bb11", pid := 7 }

/-- Witness for C2 at a concrete one-record store: the running record with
PID 7 comes back exited with PID 0 in registry and store. -/
theorem boot_reconciliation_witness :
    lookupA (loadContainers [csBootRunning7] (fun _ => false) (fun _ => true) []).1
        "bb11bb11bb11" = some { csBootRunning7 with status := "exited", pid := 0 } ∧
    lookupA (loadContainers [csBootRunning7] (fun _ => false) (fun _ => true) []).2
        "bb11bb11bb11" = some { csBootRunning7 with status := "exited", pid := 0 } := by
  have h := (boot_reconciliation [csBootRunning7] (fun _ => false) (fun _ => true) []
    csBootRunning7 (by simp) (by simp)).1 (by decide)
  exact ⟨h.1, h.2 rfl⟩

/-- Name produced by NewCgroup is the sanitized container id on both
hierarchies. -/
theorem newCgroup_name (name : String) (ctrl : List Controller) (v2 : Bool) :
    (NewCgroup name ctrl v2).name = sanitizeCgroupName name := by
  cases v2 <;> simp [NewCgroup]

/-- Helper for C3: when the start pipeline fails, the registry entry under
the requested id is still a record carrying that id (the created record,
or the running record the failed persist left behind). -/
theorem scwr_cases (d : DaemonState) (id : String) (detach : Bool) (env : CreateEnv)
    (cs : ContainerState) (hd : getContainer d id = some cs) (hid : cs.id = id)
    (hnr : cs.status ≠ "running") :
    (∃ r, (StartContainerWithRunner d id detach env).2.1 = .ok r) ∨
    (∃ e, (StartContainerWithRunner d id detach env).2.1 = .error e) ∧
      (∃ cur, lookupA (StartContainerWithRunner d id detach env).1.containers id = some cur ∧
        cur.id = id) := by
  have hlook : lookupA d.containers id = some cs := hd
  rcases hNR : NewRunner id cs.command cs.rootfs cs.limits detach env with ⟨res0, evs0⟩
  cases res0 with
  | error e0 =>
    right
    refine ⟨⟨"failed to create runner: " ++ e0, ?_⟩, cs, ?_, hid⟩ <;>
      simp [StartContainerWithRunner, getContainer, hlook, hnr, hNR]
  | ok r0 =>
    rcases hST : r0.start env with ⟨res1, r1, evs1⟩
    cases res1 with
    | error e1 =>
      right
      refine ⟨⟨"failed to start container process: " ++ e1, ?_⟩, cs, ?_, hid⟩ <;>
        simp [StartContainerWithRunner, getContainer, hlook, hnr, hNR, hST]
    | ok u =>
      by_cases hrun : env.saveRunningOk
      · left
        refine ⟨r1, ?_⟩
        simp [StartContainerWithRunner, getContainer, hlook, hnr, hNR, hST,
          updateContainer, hrun]
      · right
        have hins : ∀ m : List (String × ContainerState),
            lookupA (insertA m ({ cs with pid := r1.pid, status := "running"}).id
              { cs with pid := r1.pid, status := "running"}) id
              = some { cs with pid := r1.pid, status := "running"} := by
          intro m
          have : ({ cs with pid := r1.pid, status := "running"} : ContainerState).id = id := hid
          rw [this]
          exact lookupA_insertA_self _ _ _
        refine ⟨⟨"failed to update container state: failed to save container state",
          ?_⟩, { cs with pid := r1.pid, status := "running"}, ?_, hid⟩ <;>
          simp [StartContainerWithRunner, getContainer, hlook, hnr, hNR, hST,
            updateContainer, hrun, hins]

/-- Helper for C3: when applying the resource limits fails inside
NewRunner, the start pipeline surfaces an error and its event log records
the deletion of the cgroup that had just been created for the runner. -/
theorem scwr_setlimits_events (d : DaemonState) (id : String) (detach : Bool)
    (env : CreateEnv) (cs : ContainerState) (hd : getContainer d id = some cs)
    (hnr : cs.status ≠ "running") (hcmd : cs.command ≠ []) (hroot : cs.rootfs ≠ "")
    (hrfs : env.rootfsExists = true) (hcg : env.cgCreateOk = true)
    (hsl : (SetResourceLimits
        (NewCgroup id [Controller.cpu, Controller.memory, Controller.pids] env.cgV2)
        cs.limits env.fsOk).err.isSome = true) :
    Event.cgDelete (sanitizeCgroupName id)
      ∈ (StartContainerWithRunner d id detach env).2.2 ∧
    ∃ e2, (StartContainerWithRunner d id detach env).2.1 = .error e2 := by
  have hlook : lookupA d.containers id = some cs := hd
  obtain ⟨er, her⟩ := Option.isSome_iff_exists.mp hsl
  have hNR : NewRunner id cs.command cs.rootfs cs.limits detach env =
      (.error ("failed to set resource limits: " ++ er),
       [Event.cgDelete (sanitizeCgroupName id)]) := by
    have hne : ¬ cs.command.isEmpty := by
      simpa [List.isEmpty_iff] using hcmd
    simp [NewRunner, hne, hroot, hrfs, hcg, her, newCgroup_name]
  refine ⟨?_, ⟨"failed to create runner: " ++ ("failed to set resource limits: " ++ er), ?_⟩⟩ <;>
    simp [StartContainerWithRunner, getContainer, hlook, hnr, hNR]

/-- Helper for C3: shape of CreateContainer once the initial addContainer
persisted (its disk write succeeded). -/
theorem createContainer_eq_of_addOk (d : DaemonState) (command : List String)
    (rootfs : String) (limits : ResourceLimits) (detach : Bool) (id : String)
    (now : Int) (env : CreateEnv) (hadd : env.saveCreatedOk = true)
    (cs0 : ContainerState) (dA : DaemonState)
    (hcs0 : cs0 = { id := id, pid := 0, status := "created", command := command
                    rootfs := rootfs, created := now, limits := limits })
    (hdA : dA = { containers := insertA d.containers id cs0, runners := d.runners
                  store := insertA d.store id cs0 }) :
    CreateContainer d command rootfs limits detach id now env =
      (match (StartContainerWithRunner dA id detach env).2.1 with
       | .error e =>
         ((updateContainer (StartContainerWithRunner dA id detach env).1
             { ((getContainer (StartContainerWithRunner dA id detach env).1 id).getD cs0)
                 with status := "exited" } env.saveExitedOk).1,
          .error ("failed to start container: " ++ e),
          (StartContainerWithRunner dA id detach env).2.2)
       | .ok _ =>
         ((StartContainerWithRunner dA id detach env).1, .ok id,
          (StartContainerWithRunner dA id detach env).2.2)) := by
  subst hcs0
  subst hdA
  unfold CreateContainer addContainer
  rw [hadd]
  rfl

/-- C3: for every create request whose record was added (the initial
persist succeeded), any failure of the start path — runner construction
including cgroup setup, spawn, or persisting the running state — rolls
back before the error surfaces: the registry and (with the rollback save
succeeding) the store end up holding the record in status exited under the
requested id, the error is returned with no container id, and when the
failure was SetResourceLimits the freshly created cgroup is deleted. -/
theorem create_failure_rollback (d : DaemonState) (command : List String)
    (rootfs : String) (limits : ResourceLimits) (detach : Bool) (id : String)
    (now : Int) (env : CreateEnv)
    (hadd : env.saveCreatedOk = true) (hsave : env.saveExitedOk = true) (e : String)
    (herr : (CreateContainer d command rootfs limits detach id now env).2.1
      = .error e) :
    (∃ cs1, getContainer (CreateContainer d command rootfs limits detach id now env).1 id
        = some cs1 ∧ cs1.status = "exited") ∧
    (∃ cs2, lookupA (CreateContainer d command rootfs limits detach id now env).1.store id
        = some cs2 ∧ cs2.status = "exited") ∧
    (command ≠ [] → rootfs ≠ "" → env.rootfsExists = true → env.cgCreateOk = true →
      (SetResourceLimits (NewCgroup id [Controller.cpu, Controller.memory, Controller.pids]
        env.cgV2) limits env.fsOk).err.isSome = true →
      Event.cgDelete (sanitizeCgroupName id)
        ∈ (CreateContainer d command rootfs limits detach id now env).2.2) := by
  set cs0 : ContainerState := { id := id, pid := 0, status := "created"
                                command := command, rootfs := rootfs
                                created := now, limits := limits } with hcs0def
  set dA : DaemonState := { containers := insertA d.containers id cs0
                            runners := d.runners
                            store := insertA d.store id cs0 } with hdAdef
  have hEq := createContainer_eq_of_addOk d command rootfs limits detach id now env hadd
    cs0 dA hcs0def hdAdef
  rw [hEq] at herr ⊢
  have hlookA : getContainer dA id = some cs0 := by
    show lookupA dA.containers id = some cs0
    rw [hdAdef]
    exact lookupA_insertA_self _ _ _
  have hid0 : cs0.id = id := by rw [hcs0def]
  have hnr0 : cs0.status ≠ "running" := by rw [hcs0def]; simp
  cases hres : (StartContainerWithRunner dA id detach env).2.1 with
  | ok r0 =>
    rw [hres] at herr
    simp at herr
  | error e0 =>
    rcases scwr_cases dA id detach env cs0 hlookA hid0 hnr0 with ⟨r, hok⟩ | ⟨_, cur0, hcur, hcurid⟩
    · rw [hok] at hres
      exact absurd hres (by simp)
    · have hgd : (getContainer (StartContainerWithRunner dA id detach env).1 id).getD cs0
          = cur0 := by
        show (lookupA (StartContainerWithRunner dA id detach env).1.containers id).getD cs0
          = cur0
        rw [hcur]
        rfl
      have hexid : ({ cur0 with status := "exited" } : ContainerState).id = id := hcurid
      refine ⟨⟨{ cur0 with status := "exited" }, ?_, rfl⟩,
              ⟨{ cur0 with status := "exited" }, ?_, rfl⟩, ?_⟩
      · show lookupA (updateContainer (StartContainerWithRunner dA id detach env).1
          { ((getContainer (StartContainerWithRunner dA id detach env).1 id).getD cs0)
              with status := "exited" } env.saveExitedOk).1.containers id
          = some { cur0 with status := "exited" }
        rw [hgd]
        simp only [updateContainer, hsave, if_true]
        rw [← hexid]
        exact lookupA_insertA_self _ _ _
      · show lookupA (updateContainer (StartContainerWithRunner dA id detach env).1
          { ((getContainer (StartContainerWithRunner dA id detach env).1 id).getD cs0)
              with status := "exited" } env.saveExitedOk).1.store id
          = some { cur0 with status := "exited" }
        rw [hgd]
        simp only [updateContainer, hsave, if_true]
        rw [← hexid]
        exact lookupA_insertA_self _ _ _
      · intro hcmd hroot hrfs hcg hsl
        have hc0 : cs0.command ≠ [] := by rw [hcs0def]; exact hcmd
        have hr0 : cs0.rootfs ≠ "" := by rw [hcs0def]; exact hroot
        have hl0 : (SetResourceLimits
            (NewCgroup id [Controller.cpu, Controller.memory, Controller.pids] env.cgV2)
            cs0.limits env.fsOk).err.isSome = true := by rw [hcs0def]; exact hsl
        obtain ⟨hmem, _⟩ := scwr_setlimits_events dA id detach env cs0 hlookA hnr0
          hc0 hr0 hrfs hcg hl0
        exact hmem

/-- Environment for the C3 witness: everything succeeds except the write
to the cgroup's cpu.weight file, so SetResourceLimits fails inside
NewRunner. -/
def envC3 : CreateEnv :=
  { rootfsExists := true, cgV2 := true, cgCreateOk := true
    fsOk := fun p => !(p == pathJoin (pathJoin "/sys/fs/cgroup"
      (sanitizeCgroupName "cafe01234567")) "cpu.weight")
    initExists := true, startOk := true, addProcessOk := true, childPid := 777
    saveCreatedOk := true, saveRunningOk := true, saveExitedOk := true }

deriving instance DecidableEq for Except

/-- Witness for C3 at a concrete failing create: the limits write fails,
the error surfaces, the record ends exited in registry and store, and the
cgroup deletion is in the event log. -/
theorem create_failure_rollback_witness :
    (∃ cs1, getContainer (CreateContainer ⟨[], [], []⟩ ["/bin/sh"] "/tmp/rootfs"
        DefaultResourceLimits true "cafe01234567" 0 envC3).1 "cafe01234567"
        = some cs1 ∧ cs1.status = "exited") ∧
    (∃ cs2, lookupA (CreateContainer ⟨[], [], []⟩ ["/bin/sh"] "/tmp/rootfs"
        DefaultResourceLimits true "cafe01234567" 0 envC3).1.store "cafe01234567"
        = some cs2 ∧ cs2.status = "exited") ∧
    Event.cgDelete (sanitizeCgroupName "cafe01234567")
      ∈ (CreateContainer ⟨[], [], []⟩ ["/bin/sh"] "/tmp/rootfs" DefaultResourceLimits true
          "cafe01234567" 0 envC3).2.2 := by
  have h := create_failure_rollback ⟨[], [], []⟩ ["/bin/sh"] "/tmp/rootfs"
    DefaultResourceLimits true "cafe01234567" 0 envC3 rfl rfl
    ("failed to start container: " ++ ("failed to create runner: " ++
      ("failed to set resource limits: " ++ "failed to set cpu weight"))) (by decide)
  exact ⟨h.1, h.2.1, h.2.2 (by decide) (by decide) rfl rfl (by decide)⟩

/-! String-path helpers for the cgroup file claims. -/

theorem string_append_ne (a : String) {x y : String} (h : x ≠ y) :
    a ++ x ≠ a ++ y := by
  intro he
  apply h
  have hd := congrArg String.data he
  simp only [String.data_append] at hd
  exact String.ext (List.append_cancel_left hd)

theorem pathJoin_ne_of_ne (a : String) {x y : String} (h : x ≠ y) :
    pathJoin a x ≠ pathJoin a y :=
  string_append_ne (a ++ "/") h

theorem string_ne_of_length_ne {s t : String} (h : s.length ≠ t.length) : s ≠ t :=
  fun he => h (congrArg String.length he)

theorem writesTo_append (a b : List (String × String)) (p : String) :
    writesTo (a ++ b) p = writesTo a p ++ writesTo b p := by
  simp [writesTo]

theorem writesTo_single_eq (q : String) (c : String) (p : String) (h : q = p) :
    writesTo [(q, c)] p = [c] := by
  simp [writesTo, h]

theorem writesTo_single_ne (q : String) (c : String) (p : String) (h : q ≠ p) :
    writesTo [(q, c)] p = [] := by
  simp [writesTo, h]

theorem writesTo_nil (p : String) : writesTo [] p = [] := rfl

theorem writesTo_cons_eq (q c : String) (rest : List (String × String)) (p : String)
    (h : q = p) : writesTo ((q, c) :: rest) p = c :: writesTo rest p := by
  simp [writesTo, h]

theorem writesTo_cons_ne (q c : String) (rest : List (String × String)) (p : String)
    (h : q ≠ p) : writesTo ((q, c) :: rest) p = writesTo rest p := by
  simp [writesTo, h]

/-! Closed forms of the limit-application writes when every write succeeds. -/

theorem applyCpuLimits_v2_allOk (cg : Cgroup) (limits : ResourceLimits)
    (hv2 : cg.path ≠ "") :
    applyCpuLimits cg limits allWritesOk =
      { writes :=
          (if 0 < limits.cpuShares then
            [(pathJoin cg.path "cpu.weight", toString (cpuWeightV2 limits.cpuShares))]
           else []) ++
          (if 0 < limits.cpuQuota then
            [(pathJoin cg.path "cpu.max",
              toString limits.cpuQuota ++ " " ++ toString (cpuPeriodOrDefault limits.cpuPeriod))]
           else [])
        err := none } := by
  by_cases h1 : 0 < limits.cpuShares <;> by_cases h2 : 0 < limits.cpuQuota <;>
    simp [applyCpuLimits, allWritesOk, hv2, h1, h2]

theorem applyMemoryLimits_v2_allOk (cg : Cgroup) (limits : ResourceLimits)
    (hv2 : cg.path ≠ "") :
    applyMemoryLimits cg limits allWritesOk =
      { writes :=
          (if 0 < limits.memoryLimit then
            [(pathJoin cg.path "memory.max", toString (u64 limits.memoryLimit))]
           else []) ++
          (if 0 < limits.memorySwapLimit then
            [(pathJoin cg.path "memory.swap.max",
              toString (u64sub limits.memorySwapLimit limits.memoryLimit))]
           else [])
        err := none } := by
  by_cases h1 : 0 < limits.memoryLimit <;> by_cases h2 : 0 < limits.memorySwapLimit <;>
    simp [applyMemoryLimits, allWritesOk, hv2, h1, h2]

theorem applyPidsLimits_v2_allOk (cg : Cgroup) (limits : ResourceLimits)
    (hv2 : cg.path ≠ "") :
    applyPidsLimits cg limits allWritesOk =
      { writes := [(pathJoin cg.path "pids.max", toString limits.pidsLimit)]
        err := none } := by
  simp [applyPidsLimits, allWritesOk, hv2]

theorem setResourceLimits_v2_allOk (cg : Cgroup) (limits : ResourceLimits)
    (hv2 : cg.path ≠ "") :
    SetResourceLimits cg limits allWritesOk =
      { writes :=
          ((if 0 < limits.cpuShares then
            [(pathJoin cg.path "cpu.weight", toString (cpuWeightV2 limits.cpuShares))]
           else []) ++
          (if 0 < limits.cpuQuota then
            [(pathJoin cg.path "cpu.max",
              toString limits.cpuQuota ++ " " ++ toString (cpuPeriodOrDefault limits.cpuPeriod))]
           else [])) ++
          ((if 0 < limits.memoryLimit then
            [(pathJoin cg.path "memory.max", toString (u64 limits.memoryLimit))]
           else []) ++
          (if 0 < limits.memorySwapLimit then
            [(pathJoin cg.path "memory.swap.max",
              toString (u64sub limits.memorySwapLimit limits.memoryLimit))]
           else [])) ++
          (if 0 < limits.pidsLimit then
            [(pathJoin cg.path "pids.max", toString limits.pidsLimit)]
           else [])
        err := none } := by
  by_cases h3 : 0 < limits.pidsLimit <;>
    simp [SetResourceLimits, applyCpuLimits_v2_allOk cg limits hv2,
      applyMemoryLimits_v2_allOk cg limits hv2, applyPidsLimits_v2_allOk cg limits hv2, h3]

/-- Arithmetic of the v2 weight conversion in the non-wrapping range: for
shares between 2 and the overflow bound the uint64 computation agrees with
the plain formula 1 + (shares-2)*9999/262142. -/
theorem cpuWeightV2_formula (s : Nat) (h2 : 2 ≤ s) (hU : s < U64)
    (hmul : (s - 2) * 9999 < U64) :
    cpuWeightV2 s = 1 + (s - 2) * 9999 / 262142 := by
  have hU64 : U64 = 18446744073709551616 := by norm_num [U64]
  have hsub : u64sub s 2 = s - 2 := by
    unfold u64sub u64
    rw [hU64]
    rw [hU64] at hU
    omega
  have hmul1 : u64mul (s - 2) 9999 = (s - 2) * 9999 := by
    unfold u64mul u64
    have ha : (s - 2) % U64 = s - 2 := Nat.mod_eq_of_lt (by omega)
    have hb : (9999 : Nat) % U64 = 9999 := by rw [hU64]
    rw [ha, hb, Nat.mod_eq_of_lt hmul]
  have hdivle : (s - 2) * 9999 / 262142 ≤ (U64 - 1) / 262142 :=
    Nat.div_le_div_right (by omega)
  have hdval : (U64 - 1) / 262142 = 70369281052672 := by rw [hU64]
  have hlt : 1 + (s - 2) * 9999 / 262142 < U64 := by
    rw [hdval] at hdivle
    rw [hU64]
    omega
  have hadd : u64add 1 ((s - 2) * 9999 / 262142) = 1 + (s - 2) * 9999 / 262142 := by
    unfold u64add u64
    have ha : (1 : Nat) % U64 = 1 := by rw [hU64]
    have hb : (s - 2) * 9999 / 262142 % U64 = (s - 2) * 9999 / 262142 :=
      Nat.mod_eq_of_lt (by omega)
    rw [ha, hb, Nat.mod_eq_of_lt hlt]
  unfold cpuWeightV2
  rw [hsub, hmul1, hadd]
  have hne : 1 + (s - 2) * 9999 / 262142 ≠ 0 := by omega
  simp [hne]

/-- Definition following the specification's words for C6: the value
1 + ((shares-2)*9999)/262142 read over the mathematical integers, with the
truncating integer division the source language uses on signed values. -/
def specCpuWeight (s : Int) : Int := 1 + Int.tdiv ((s - 2) * 9999) 262142

/-- Cgroup fixture on the v2 hierarchy for the cgroup-file claims. -/
def cgV2Fixture : Cgroup :=
  NewCgroup "0123456789ab" [Controller.cpu, Controller.memory, Controller.pids] true

/-- Limits fixture requesting one CPU share and nothing else. -/
def limShares1 : ResourceLimits :=
  { cpuShares := 1, cpuQuota := -1, cpuPeriod := 0
    memoryLimit := 0, memorySwapLimit := 0, pidsLimit := 0 }

/-- Counterexample to C6 as stated: with CPU shares s = 1 the kernel file
receives the wrapped uint64 value 70369281052672, not the value
1 + ((1-2)*9999)/262142 of the claimed formula over the integers (which is
1 with truncating division, 0 with flooring division). -/
theorem cpu_weight_counterexample :
    writesTo (SetResourceLimits cgV2Fixture limShares1 allWritesOk).writes
        (pathJoin cgV2Fixture.path "cpu.weight")
      = [toString (cpuWeightV2 1)] ∧
    cpuWeightV2 1 = 70369281052672 ∧
    ((cpuWeightV2 1 : Int) ≠ specCpuWeight 1 ∧
     (cpuWeightV2 1 : Int) ≠ 1 + Int.fdiv (((1 : Int) - 2) * 9999) 262142) := by
  refine ⟨by rfl, by decide, by decide, by decide⟩

/-- C6 (amended): on a cgroup-v2 hierarchy, a caps value with CPU shares
s > 0 makes SetResourceLimits write to cpu.weight exactly the value
1 + ((s-2)*9999)/262142 computed in unsigned 64-bit wrapping arithmetic
(cpuWeightV2); for 2 ≤ s below the overflow bound this equals the plain
integer formula 1 + (s-2)*9999/262142, while s = 1 wraps; caps with s = 0
are skipped and nothing is written to cpu.weight. -/
theorem cpu_weight_v2_translation (cg : Cgroup) (limits : ResourceLimits)
    (hv2 : cg.path ≠ "") :
    (0 < limits.cpuShares →
      writesTo (SetResourceLimits cg limits allWritesOk).writes
        (pathJoin cg.path "cpu.weight") = [toString (cpuWeightV2 limits.cpuShares)]) ∧
    (2 ≤ limits.cpuShares → limits.cpuShares < U64 →
      (limits.cpuShares - 2) * 9999 < U64 →
      cpuWeightV2 limits.cpuShares = 1 + (limits.cpuShares - 2) * 9999 / 262142) ∧
    (limits.cpuShares = 0 →
      writesTo (SetResourceLimits cg limits allWritesOk).writes
        (pathJoin cg.path "cpu.weight") = []) := by
  have hne1 : pathJoin cg.path "cpu.max" ≠ pathJoin cg.path "cpu.weight" :=
    pathJoin_ne_of_ne _ (by decide)
  have hne2 : pathJoin cg.path "memory.max" ≠ pathJoin cg.path "cpu.weight" :=
    pathJoin_ne_of_ne _ (by decide)
  have hne3 : pathJoin cg.path "memory.swap.max" ≠ pathJoin cg.path "cpu.weight" :=
    pathJoin_ne_of_ne _ (by decide)
  have hne4 : pathJoin cg.path "pids.max" ≠ pathJoin cg.path "cpu.weight" :=
    pathJoin_ne_of_ne _ (by decide)
  refine ⟨?_, fun a b c => cpuWeightV2_formula _ a b c, ?_⟩
  · intro hs
    rw [setResourceLimits_v2_allOk cg limits hv2]
    by_cases h2 : 0 < limits.cpuQuota <;> by_cases h3 : 0 < limits.memoryLimit <;>
      by_cases h4 : 0 < limits.memorySwapLimit <;> by_cases h5 : 0 < limits.pidsLimit <;>
      simp [hs, h2, h3, h4, h5, writesTo_nil, hne1, hne2, hne3, hne4,
        writesTo_cons_eq, writesTo_cons_ne]
  · intro hs
    rw [setResourceLimits_v2_allOk cg limits hv2]
    by_cases h2 : 0 < limits.cpuQuota <;> by_cases h3 : 0 < limits.memoryLimit <;>
      by_cases h4 : 0 < limits.memorySwapLimit <;> by_cases h5 : 0 < limits.pidsLimit <;>
      simp [hs, h2, h3, h4, h5, writesTo_nil, hne1, hne2, hne3, hne4,
        writesTo_cons_eq, writesTo_cons_ne]

/-- Limits fixture with the default 1024 CPU shares only. -/
def limShares1024 : ResourceLimits :=
  { cpuShares := 1024, cpuQuota := -1, cpuPeriod := 0
    memoryLimit := 0, memorySwapLimit := 0, pidsLimit := 0 }

/-- Witness for C6 at the v2 fixture cgroup and the default 1024 shares:
the single cpu.weight write carries the value 39. -/
theorem cpu_weight_v2_translation_witness :
    writesTo (SetResourceLimits cgV2Fixture limShares1024 allWritesOk).writes
        (pathJoin cgV2Fixture.path "cpu.weight") = [toString (cpuWeightV2 1024)] ∧
    cpuWeightV2 1024 = 1 + (1024 - 2) * 9999 / 262142 := by
  have h := cpu_weight_v2_translation cgV2Fixture limShares1024 (by decide)
  exact ⟨h.1 (by decide), h.2.1 (by decide) (by decide) (by decide)⟩

/-- Length-based disequality for the v1 per-controller file paths, which
share the root and the cgroup name but differ in controller and file. -/
theorem pathJoin3_ne_of_len (base x1 f1 x2 f2 name : String)
    (h : x1.length + f1.length ≠ x2.length + f2.length) :
    pathJoin (pathJoin (pathJoin base x1) name) f1
      ≠ pathJoin (pathJoin (pathJoin base x2) name) f2 := by
  apply string_ne_of_length_ne
  simp only [pathJoin, String.length_append]
  omega

theorem applyCpuLimits_v1_allOk (cg : Cgroup) (limits : ResourceLimits)
    (hv1 : cg.path = "") :
    applyCpuLimits cg limits allWritesOk =
      { writes :=
          (if 0 < limits.cpuShares then
            [(pathJoin (pathJoin (pathJoin "/sys/fs/cgroup" "cpu") cg.name) "cpu.shares",
              toString (u64 limits.cpuShares))]
           else []) ++
          (if 0 ≤ limits.cpuQuota then
            [(pathJoin (pathJoin (pathJoin "/sys/fs/cgroup" "cpu") cg.name) "cpu.cfs_quota_us",
              toString limits.cpuQuota)]
           else []) ++
          (if 0 < limits.cpuPeriod then
            [(pathJoin (pathJoin (pathJoin "/sys/fs/cgroup" "cpu") cg.name) "cpu.cfs_period_us",
              toString (u64 limits.cpuPeriod))]
           else [])
        err := none } := by
  by_cases h1 : 0 < limits.cpuShares <;> by_cases h2 : 0 ≤ limits.cpuQuota <;>
    by_cases h3 : 0 < limits.cpuPeriod <;>
    simp [applyCpuLimits, allWritesOk, hv1, h1, h2, h3]

theorem applyMemoryLimits_v1_allOk (cg : Cgroup) (limits : ResourceLimits)
    (hv1 : cg.path = "") :
    applyMemoryLimits cg limits allWritesOk =
      { writes :=
          (if 0 < limits.memoryLimit then
            [(pathJoin (pathJoin (pathJoin "/sys/fs/cgroup" "memory") cg.name)
                "memory.limit_in_bytes", toString (u64 limits.memoryLimit))]
           else []) ++
          (if 0 < limits.memorySwapLimit then
            [(pathJoin (pathJoin (pathJoin "/sys/fs/cgroup" "memory") cg.name)
                "memory.memsw.limit_in_bytes", toString (u64 limits.memorySwapLimit))]
           else [])
        err := none } := by
  by_cases h1 : 0 < limits.memoryLimit <;> by_cases h2 : 0 < limits.memorySwapLimit <;>
    simp [applyMemoryLimits, allWritesOk, hv1, h1, h2]

theorem applyPidsLimits_v1_allOk (cg : Cgroup) (limits : ResourceLimits)
    (hv1 : cg.path = "") :
    applyPidsLimits cg limits allWritesOk =
      { writes := [(pathJoin (pathJoin (pathJoin "/sys/fs/cgroup" "pids") cg.name) "pids.max",
          toString limits.pidsLimit)]
        err := none } := by
  simp [applyPidsLimits, allWritesOk, hv1]

theorem setResourceLimits_v1_allOk (cg : Cgroup) (limits : ResourceLimits)
    (hv1 : cg.path = "") :
    SetResourceLimits cg limits allWritesOk =
      { writes :=
          ((if 0 < limits.cpuShares then
            [(pathJoin (pathJoin (pathJoin "/sys/fs/cgroup" "cpu") cg.name) "cpu.shares",
              toString (u64 limits.cpuShares))]
           else []) ++
          (if 0 ≤ limits.cpuQuota then
            [(pathJoin (pathJoin (pathJoin "/sys/fs/cgroup" "cpu") cg.name) "cpu.cfs_quota_us",
              toString limits.cpuQuota)]
           else []) ++
          (if 0 < limits.cpuPeriod then
            [(pathJoin (pathJoin (pathJoin "/sys/fs/cgroup" "cpu") cg.name) "cpu.cfs_period_us",
              toString (u64 limits.cpuPeriod))]
           else [])) ++
          ((if 0 < limits.memoryLimit then
            [(pathJoin (pathJoin (pathJoin "/sys/fs/cgroup" "memory") cg.name)
                "memory.limit_in_bytes", toString (u64 limits.memoryLimit))]
           else []) ++
          (if 0 < limits.memorySwapLimit then
            [(pathJoin (pathJoin (pathJoin "/sys/fs/cgroup" "memory") cg.name)
                "memory.memsw.limit_in_bytes", toString (u64 limits.memorySwapLimit))]
           else [])) ++
          (if 0 < limits.pidsLimit then
            [(pathJoin (pathJoin (pathJoin "/sys/fs/cgroup" "pids") cg.name) "pids.max",
              toString limits.pidsLimit)]
           else [])
        err := none } := by
  by_cases h3 : 0 < limits.pidsLimit <;>
    simp [SetResourceLimits, applyCpuLimits_v1_allOk cg limits hv1,
      applyMemoryLimits_v1_allOk cg limits hv1, applyPidsLimits_v1_allOk cg limits hv1, h3]

/-- Subtraction agreement in the non-underflowing range. -/
theorem u64sub_eq (a b : Nat) (hb : b ≤ a) (ha : a < U64) : u64sub a b = a - b := by
  have hU64 : U64 = 18446744073709551616 := by norm_num [U64]
  unfold u64sub u64
  rw [hU64]
  rw [hU64] at ha
  omega

/-- Definition following the specification's words for C7: memory.swap.max
receives the swap amount alone, the difference of the memory+swap limit
and the memory limit over the integers. -/
def specSwapMax (w m : Int) : Int := w - m

/-- Limits fixture with a memory limit above the memory+swap limit. -/
def limSwapLtMem : ResourceLimits :=
  { cpuShares := 0, cpuQuota := -1, cpuPeriod := 0
    memoryLimit := 2, memorySwapLimit := 1, pidsLimit := 0 }

/-- Counterexample to C7 as stated: with memory+swap w = 1 below the
memory limit m = 2 (nothing validates the pair), the v2 path writes the
wrapped uint64 value 2^64 - 1 into memory.swap.max, not w - m. -/
theorem memory_swap_counterexample :
    writesTo (SetResourceLimits cgV2Fixture limSwapLtMem allWritesOk).writes
        (pathJoin cgV2Fixture.path "memory.swap.max")
      = [toString (u64sub 1 2)] ∧
    u64sub 1 2 = 18446744073709551615 ∧
    (u64sub 1 2 : Int) ≠ specSwapMax 1 2 :=
  ⟨by rfl, by decide, by decide⟩

/-- Identity of the uint64 reduction below the modulus. -/
theorem u64_id (a : Nat) (h : a < U64) : u64 a = a := Nat.mod_eq_of_lt h

/-- Helper for C7: on v2, failing exactly the memory.swap.max write leaves
SetResourceLimits without a surfaced error. -/
theorem setLimits_v2_swap_ignored (cg : Cgroup) (limits : ResourceLimits)
    (hv2 : cg.path ≠ "") :
    (SetResourceLimits cg limits
      (fun p => !(p == pathJoin cg.path "memory.swap.max"))).err = none := by
  have o1 : (!(pathJoin cg.path "cpu.weight" == pathJoin cg.path "memory.swap.max")) = true := by
    simp only [Bool.not_eq_true', beq_eq_false_iff_ne]
    exact pathJoin_ne_of_ne _ (by decide)
  have o2 : (!(pathJoin cg.path "cpu.max" == pathJoin cg.path "memory.swap.max")) = true := by
    simp only [Bool.not_eq_true', beq_eq_false_iff_ne]
    exact pathJoin_ne_of_ne _ (by decide)
  have o3 : (!(pathJoin cg.path "memory.max" == pathJoin cg.path "memory.swap.max")) = true := by
    simp only [Bool.not_eq_true', beq_eq_false_iff_ne]
    exact pathJoin_ne_of_ne _ (by decide)
  have o4 : (!(pathJoin cg.path "pids.max" == pathJoin cg.path "memory.swap.max")) = true := by
    simp only [Bool.not_eq_true', beq_eq_false_iff_ne]
    exact pathJoin_ne_of_ne _ (by decide)
  have o5 : (!(pathJoin cg.path "memory.swap.max" == pathJoin cg.path "memory.swap.max"))
      = false := by simp
  by_cases h1 : 0 < limits.cpuShares <;> by_cases h2 : 0 < limits.cpuQuota <;>
    by_cases h3 : 0 < limits.memoryLimit <;> by_cases h4 : 0 < limits.memorySwapLimit <;>
    by_cases h5 : 0 < limits.pidsLimit <;>
    simp [SetResourceLimits, applyCpuLimits, applyMemoryLimits, applyPidsLimits,
      hv2, h1, h2, h3, h4, h5, o1, o2, o3, o4, o5]

/-- Helper for C7: on v1, failing exactly the memory.memsw.limit_in_bytes
write leaves SetResourceLimits without a surfaced error. -/
theorem setLimits_v1_swap_ignored (cg : Cgroup) (limits : ResourceLimits)
    (hv1 : cg.path = "") :
    (SetResourceLimits cg limits
      (fun p => !(p == pathJoin (pathJoin (pathJoin "/sys/fs/cgroup" "memory") cg.name)
        "memory.memsw.limit_in_bytes"))).err = none := by
  have q1 : (!(pathJoin (pathJoin (pathJoin "/sys/fs/cgroup" "cpu") cg.name) "cpu.shares"
      == pathJoin (pathJoin (pathJoin "/sys/fs/cgroup" "memory") cg.name)
        "memory.memsw.limit_in_bytes")) = true := by
    simp only [Bool.not_eq_true', beq_eq_false_iff_ne]
    exact pathJoin3_ne_of_len _ _ _ _ _ _ (by decide)
  have q2 : (!(pathJoin (pathJoin (pathJoin "/sys/fs/cgroup" "cpu") cg.name) "cpu.cfs_quota_us"
      == pathJoin (pathJoin (pathJoin "/sys/fs/cgroup" "memory") cg.name)
        "memory.memsw.limit_in_bytes")) = true := by
    simp only [Bool.not_eq_true', beq_eq_false_iff_ne]
    exact pathJoin3_ne_of_len _ _ _ _ _ _ (by decide)
  have q3 : (!(pathJoin (pathJoin (pathJoin "/sys/fs/cgroup" "cpu") cg.name) "cpu.cfs_period_us"
      == pathJoin (pathJoin (pathJoin "/sys/fs/cgroup" "memory") cg.name)
        "memory.memsw.limit_in_bytes")) = true := by
    simp only [Bool.not_eq_true', beq_eq_false_iff_ne]
    exact pathJoin3_ne_of_len _ _ _ _ _ _ (by decide)
  have q4 : (!(pathJoin (pathJoin (pathJoin "/sys/fs/cgroup" "memory") cg.name)
        "memory.limit_in_bytes"
      == pathJoin (pathJoin (pathJoin "/sys/fs/cgroup" "memory") cg.name)
        "memory.memsw.limit_in_bytes")) = true := by
    simp only [Bool.not_eq_true', beq_eq_false_iff_ne]
    exact pathJoin_ne_of_ne _ (by decide)
  have q5 : (!(pathJoin (pathJoin (pathJoin "/sys/fs/cgroup" "pids") cg.name) "pids.max"
      == pathJoin (pathJoin (pathJoin "/sys/fs/cgroup" "memory") cg.name)
        "memory.memsw.limit_in_bytes")) = true := by
    simp only [Bool.not_eq_true', beq_eq_false_iff_ne]
    exact pathJoin3_ne_of_len _ _ _ _ _ _ (by decide)
  have q6 : (!(pathJoin (pathJoin (pathJoin "/sys/fs/cgroup" "memory") cg.name)
        "memory.memsw.limit_in_bytes"
      == pathJoin (pathJoin (pathJoin "/sys/fs/cgroup" "memory") cg.name)
        "memory.memsw.limit_in_bytes")) = false := by simp
  by_cases h1 : 0 < limits.cpuShares <;> by_cases h2 : 0 ≤ limits.cpuQuota <;>
    by_cases h3 : 0 < limits.cpuPeriod <;> by_cases h4 : 0 < limits.memoryLimit <;>
    by_cases h5 : 0 < limits.memorySwapLimit <;> by_cases h6 : 0 < limits.pidsLimit <;>
    simp [SetResourceLimits, applyCpuLimits, applyMemoryLimits, applyPidsLimits,
      hv1, h1, h2, h3, h4, h5, h6, q1, q2, q3, q4, q5, q6]

/-- C7 (amended): for caps with memory+swap limit w > 0 and memory limit
m, SetResourceLimits on a v2 hierarchy writes to memory.swap.max the value
w - m computed in unsigned 64-bit arithmetic — equal to the swap amount
alone whenever m ≤ w, and wrapping when m > w — whereas on v1 it writes
the full value w to memory/memory.memsw.limit_in_bytes; on both
hierarchies a failed write of that swap file is ignored rather than
surfaced. -/
theorem memory_swap_translation (cg : Cgroup) (limits : ResourceLimits) :
    (cg.path ≠ "" → 0 < limits.memorySwapLimit →
      limits.memoryLimit ≤ limits.memorySwapLimit → limits.memorySwapLimit < U64 →
      writesTo (SetResourceLimits cg limits allWritesOk).writes
          (pathJoin cg.path "memory.swap.max")
        = [toString (limits.memorySwapLimit - limits.memoryLimit)]) ∧
    (cg.path = "" → 0 < limits.memorySwapLimit → limits.memorySwapLimit < U64 →
      writesTo (SetResourceLimits cg limits allWritesOk).writes
          (pathJoin (pathJoin (pathJoin "/sys/fs/cgroup" "memory") cg.name)
            "memory.memsw.limit_in_bytes")
        = [toString limits.memorySwapLimit]) ∧
    (cg.path ≠ "" →
      (SetResourceLimits cg limits
        (fun p => !(p == pathJoin cg.path "memory.swap.max"))).err = none) ∧
    (cg.path = "" →
      (SetResourceLimits cg limits
        (fun p => !(p == pathJoin (pathJoin (pathJoin "/sys/fs/cgroup" "memory") cg.name)
          "memory.memsw.limit_in_bytes"))).err = none) := by
  refine ⟨?_, ?_, fun hv2 => setLimits_v2_swap_ignored cg limits hv2,
    fun hv1 => setLimits_v1_swap_ignored cg limits hv1⟩
  · intro hv2 hw hmw hwU
    rw [setResourceLimits_v2_allOk cg limits hv2]
    have hval : u64sub limits.memorySwapLimit limits.memoryLimit
        = limits.memorySwapLimit - limits.memoryLimit := u64sub_eq _ _ hmw hwU
    have hne1 : pathJoin cg.path "cpu.weight" ≠ pathJoin cg.path "memory.swap.max" :=
      pathJoin_ne_of_ne _ (by decide)
    have hne2 : pathJoin cg.path "cpu.max" ≠ pathJoin cg.path "memory.swap.max" :=
      pathJoin_ne_of_ne _ (by decide)
    have hne3 : pathJoin cg.path "memory.max" ≠ pathJoin cg.path "memory.swap.max" :=
      pathJoin_ne_of_ne _ (by decide)
    have hne4 : pathJoin cg.path "pids.max" ≠ pathJoin cg.path "memory.swap.max" :=
      pathJoin_ne_of_ne _ (by decide)
    by_cases h1 : 0 < limits.cpuShares <;> by_cases h2 : 0 < limits.cpuQuota <;>
      by_cases h3 : 0 < limits.memoryLimit <;> by_cases h5 : 0 < limits.pidsLimit <;>
      simp [hw, h1, h2, h3, h5, hval, hne1, hne2, hne3, hne4, writesTo_nil,
        writesTo_cons_eq, writesTo_cons_ne]
  · intro hv1 hw hwU
    rw [setResourceLimits_v1_allOk cg limits hv1]
    have hval : u64 limits.memorySwapLimit = limits.memorySwapLimit := u64_id _ hwU
    have hme1 : pathJoin (pathJoin (pathJoin "/sys/fs/cgroup" "cpu") cg.name) "cpu.shares"
        ≠ pathJoin (pathJoin (pathJoin "/sys/fs/cgroup" "memory") cg.name)
          "memory.memsw.limit_in_bytes" :=
      pathJoin3_ne_of_len _ _ _ _ _ _ (by decide)
    have hme2 : pathJoin (pathJoin (pathJoin "/sys/fs/cgroup" "cpu") cg.name) "cpu.cfs_quota_us"
        ≠ pathJoin (pathJoin (pathJoin "/sys/fs/cgroup" "memory") cg.name)
          "memory.memsw.limit_in_bytes" :=
      pathJoin3_ne_of_len _ _ _ _ _ _ (by decide)
    have hme3 : pathJoin (pathJoin (pathJoin "/sys/fs/cgroup" "cpu") cg.name) "cpu.cfs_period_us"
        ≠ pathJoin (pathJoin (pathJoin "/sys/fs/cgroup" "memory") cg.name)
          "memory.memsw.limit_in_bytes" :=
      pathJoin3_ne_of_len _ _ _ _ _ _ (by decide)
    have hme4 : pathJoin (pathJoin (pathJoin "/sys/fs/cgroup" "memory") cg.name)
          "memory.limit_in_bytes"
        ≠ pathJoin (pathJoin (pathJoin "/sys/fs/cgroup" "memory") cg.name)
          "memory.memsw.limit_in_bytes" :=
      pathJoin_ne_of_ne _ (by decide)
    have hme5 : pathJoin (pathJoin (pathJoin "/sys/fs/cgroup" "pids") cg.name) "pids.max"
        ≠ pathJoin (pathJoin (pathJoin "/sys/fs/cgroup" "memory") cg.name)
          "memory.memsw.limit_in_bytes" :=
      pathJoin3_ne_of_len _ _ _ _ _ _ (by decide)
    by_cases h1 : 0 < limits.cpuShares <;> by_cases h2 : 0 ≤ limits.cpuQuota <;>
      by_cases h3 : 0 < limits.cpuPeriod <;> by_cases h4 : 0 < limits.memoryLimit <;>
      by_cases h6 : 0 < limits.pidsLimit <;>
      simp [hw, h1, h2, h3, h4, h6, hval, hme1, hme2, hme3, hme4, hme5, writesTo_nil,
        writesTo_cons_eq, writesTo_cons_ne]

/-- Limits fixture with 64 MiB memory and 128 MiB memory+swap. -/
def limMemSwap : ResourceLimits :=
  { cpuShares := 0, cpuQuota := -1, cpuPeriod := 0
    memoryLimit := 67108864, memorySwapLimit := 134217728, pidsLimit := 0 }

/-- V1 fixture cgroup for the C7 witness. -/
def cgV1Fixture : Cgroup :=
  NewCgroup "0123456789ab" [Controller.cpu, Controller.memory, Controller.pids] false

/-- Witness for C7 at concrete v2 and v1 cgroups with 64 MiB memory and
128 MiB memory+swap: v2 writes the 64 MiB difference, v1 the full 128 MiB,
and a failed swap write surfaces no error on either hierarchy. -/
theorem memory_swap_translation_witness :
    writesTo (SetResourceLimits cgV2Fixture limMemSwap allWritesOk).writes
        (pathJoin cgV2Fixture.path "memory.swap.max")
      = [toString ((134217728 : Nat) - 67108864)] ∧
    writesTo (SetResourceLimits cgV1Fixture limMemSwap allWritesOk).writes
        (pathJoin (pathJoin (pathJoin "/sys/fs/cgroup" "memory") cgV1Fixture.name)
          "memory.memsw.limit_in_bytes")
      = [toString (134217728 : Nat)] ∧
    (SetResourceLimits cgV2Fixture limMemSwap
        (fun p => !(p == pathJoin cgV2Fixture.path "memory.swap.max"))).err = none ∧
    (SetResourceLimits cgV1Fixture limMemSwap
        (fun p => !(p == pathJoin (pathJoin (pathJoin "/sys/fs/cgroup" "memory")
          cgV1Fixture.name) "memory.memsw.limit_in_bytes"))).err = none := by
  have h2 := memory_swap_translation cgV2Fixture limMemSwap
  have h1 := memory_swap_translation cgV1Fixture limMemSwap
  exact ⟨h2.1 (by decide) (by decide) (by decide) (by decide),
         h1.2.1 rfl (by decide) (by decide),
         h2.2.2.1 (by decide), h1.2.2.2 rfl⟩
